import Mathlib

/-!
Shallow embedding of the topstep_bot trading bot's risk engine, strategy and
main-loop position-transition logic (src/risk/risk_manager.py,
src/strategy/basic_strategy.py, src/main.py).  Python floats are modelled as
rationals (the spec's claims are algebraic identities and comparisons, not
rounding facts); Python ints as integers; a value that may be Python `None`
as an `Option`; a Python call that may raise as an `Except`.
-/

/-- State of `RiskManager` (src/risk/risk_manager.py, `__init__`).  The three
constructor parameters are kept as fields since the methods read them. -/
structure RiskManager where
  starting_balance : ℚ
  daily_loss_limit : ℚ
  max_drawdown : ℚ
  daily_start_balance : ℚ
  current_balance : ℚ
  peak_balance : ℚ
  trailing_threshold : ℚ
  daily_realized_pl : ℚ
  trading_disabled : Bool
  deriving DecidableEq, Repr

/-- `RiskManager.__init__(starting_balance, daily_loss_limit, max_drawdown)`. -/
def RiskManager.init (starting_balance daily_loss_limit max_drawdown : ℚ) :
    RiskManager where
  starting_balance := starting_balance
  daily_loss_limit := daily_loss_limit
  max_drawdown := max_drawdown
  daily_start_balance := starting_balance
  current_balance := starting_balance
  peak_balance := starting_balance
  trailing_threshold := starting_balance - max_drawdown
  daily_realized_pl := 0
  trading_disabled := false

/-- `RiskManager.reset_day`: `daily_start_balance = current_balance`,
`daily_realized_pl = 0.0` (logging only otherwise). -/
def RiskManager.reset_day (rm : RiskManager) : RiskManager :=
  { rm with daily_start_balance := rm.current_balance, daily_realized_pl := 0 }

/-- `RiskManager.update_after_trade(profit_loss)`: adds the realized P&L to
`daily_realized_pl` and `current_balance`, raises the peak (and recomputes
`trailing_threshold = peak_balance - max_drawdown`) on a new high watermark,
then runs the trailing-drawdown check (`<`) and the daily-loss check (`<=`),
each setting `trading_disabled` on breach. -/
def RiskManager.update_after_trade (rm : RiskManager) (profit_loss : ℚ) :
    RiskManager :=
  let rm1 := { rm with daily_realized_pl := rm.daily_realized_pl + profit_loss,
                       current_balance := rm.current_balance + profit_loss }
  let rm2 :=
    if rm1.current_balance > rm1.peak_balance then
      { rm1 with peak_balance := rm1.current_balance,
                 trailing_threshold := rm1.current_balance - rm1.max_drawdown }
    else rm1
  let rm3 :=
    if rm2.current_balance < rm2.trailing_threshold then
      { rm2 with trading_disabled := true }
    else rm2
  if rm3.current_balance ≤ rm3.daily_start_balance - rm3.daily_loss_limit then
    { rm3 with trading_disabled := true }
  else rm3

/-- `RiskManager.allow_new_trade`: `False` when `trading_disabled`, else
`True`.  Pure predicate, no mutation. -/
def RiskManager.allow_new_trade (rm : RiskManager) : Bool :=
  if rm.trading_disabled then false else true

/-- `RiskManager.check_real_time_risk(unrealized_pl)`: returns the flag the
Python method returns together with the (possibly) mutated state. -/
def RiskManager.check_real_time_risk (rm : RiskManager) (unrealized_pl : ℚ) :
    RiskManager × Bool :=
  if rm.trading_disabled then (rm, true)
  else
    let equity := rm.current_balance + unrealized_pl
    if equity < rm.trailing_threshold then
      ({ rm with trading_disabled := true }, true)
    else if equity ≤ rm.daily_start_balance - rm.daily_loss_limit then
      ({ rm with trading_disabled := true }, true)
    else (rm, false)

/-- `RiskManager.calculate_pnl(entry_price, exit_price, size, point_value)`.
The Python annotation says `point_value: float`, but the callers in main.py
pass `api.point_value`, which may be `None`; the method itself performs no
`None` check, so `(exit_price - entry_price) * size * point_value` raises a
`TypeError` when `point_value` is `None` and `size != 0` (the `size == 0`
early return fires before `point_value` is touched). -/
def RiskManager.calculate_pnl (entry_price exit_price : ℚ) (size : ℤ)
    (point_value : Option ℚ) : Except String ℚ :=
  if size = 0 then Except.ok 0
  else
    match point_value with
    | none => Except.error "TypeError"
    | some pv => Except.ok ((exit_price - entry_price) * (size : ℚ) * pv)

/-- `RiskManager.check_kill_switch`: stub, always `False`. -/
def RiskManager.check_kill_switch (_rm : RiskManager) : Bool := false

/-- One call to a public `RiskManager` method, for the reachability claims. -/
inductive RMOp where
  | resetDay
  | updateAfterTrade (pl : ℚ)
  | allowNewTrade
  | checkRealTimeRisk (u : ℚ)
  | calculatePnl (entry exitP : ℚ) (size : ℤ) (pv : Option ℚ)

/-- Effect of one method call on the `RiskManager` state.  `allow_new_trade`
and `calculate_pnl` read no mutable state and write none. -/
def applyOp (rm : RiskManager) : RMOp → RiskManager
  | .resetDay => rm.reset_day
  | .updateAfterTrade pl => rm.update_after_trade pl
  | .allowNewTrade => rm
  | .checkRealTimeRisk u => (rm.check_real_time_risk u).1
  | .calculatePnl _ _ _ _ => rm

/-- The state after a sequence of method calls. -/
def runOps (rm : RiskManager) (ops : List RMOp) : RiskManager :=
  ops.foldl applyOp rm

-- ### Helper lemmas on RiskManager

/-- The trailing threshold always tracks `peak_balance - max_drawdown`. -/
def RMThresholdInv (rm : RiskManager) : Prop :=
  rm.trailing_threshold = rm.peak_balance - rm.max_drawdown

theorem update_after_trade_fields (rm : RiskManager) (pl : ℚ) :
    (rm.update_after_trade pl).daily_realized_pl = rm.daily_realized_pl + pl ∧
    (rm.update_after_trade pl).current_balance = rm.current_balance + pl ∧
    (rm.update_after_trade pl).starting_balance = rm.starting_balance ∧
    (rm.update_after_trade pl).daily_loss_limit = rm.daily_loss_limit ∧
    (rm.update_after_trade pl).max_drawdown = rm.max_drawdown ∧
    (rm.update_after_trade pl).daily_start_balance = rm.daily_start_balance := by
  simp only [RiskManager.update_after_trade]
  split_ifs <;> simp

theorem update_after_trade_peak (rm : RiskManager) (pl : ℚ) :
    (rm.current_balance + pl > rm.peak_balance →
      (rm.update_after_trade pl).peak_balance = rm.current_balance + pl ∧
      (rm.update_after_trade pl).trailing_threshold =
        rm.current_balance + pl - rm.max_drawdown) ∧
    (¬ rm.current_balance + pl > rm.peak_balance →
      (rm.update_after_trade pl).peak_balance = rm.peak_balance ∧
      (rm.update_after_trade pl).trailing_threshold = rm.trailing_threshold) := by
  simp only [RiskManager.update_after_trade]
  split_ifs with h <;> constructor <;> intro h' <;> simp_all

theorem update_after_trade_disabled (rm : RiskManager) (pl : ℚ) :
    (rm.update_after_trade pl).trading_disabled =
      (rm.trading_disabled
        || decide ((rm.update_after_trade pl).current_balance <
              (rm.update_after_trade pl).trailing_threshold)
        || decide ((rm.update_after_trade pl).current_balance ≤
              rm.daily_start_balance - rm.daily_loss_limit)) := by
  simp only [RiskManager.update_after_trade]
  split_ifs <;> simp_all
  all_goals
    rw [decide_eq_false (by linarith), decide_eq_false (by linarith)]
    simp

theorem applyOp_threshold_inv (rm : RiskManager) (op : RMOp)
    (h : RMThresholdInv rm) : RMThresholdInv (applyOp rm op) := by
  cases op with
  | resetDay => simpa [applyOp, RiskManager.reset_day, RMThresholdInv] using h
  | updateAfterTrade pl =>
      simp only [applyOp, RiskManager.update_after_trade, RMThresholdInv] at *
      split_ifs <;> simp_all
  | allowNewTrade => simpa [applyOp] using h
  | checkRealTimeRisk u =>
      simp only [applyOp, RiskManager.check_real_time_risk, RMThresholdInv] at *
      split_ifs <;> simp_all
  | calculatePnl e x s pv => simpa [applyOp] using h

theorem applyOp_peak_mono (rm : RiskManager) (op : RMOp) :
    rm.peak_balance ≤ (applyOp rm op).peak_balance := by
  cases op with
  | resetDay => simp [applyOp, RiskManager.reset_day]
  | updateAfterTrade pl =>
      simp only [applyOp, RiskManager.update_after_trade]
      split_ifs <;> simp_all
      all_goals linarith
  | allowNewTrade => simp [applyOp]
  | checkRealTimeRisk u =>
      simp only [applyOp, RiskManager.check_real_time_risk]
      split_ifs <;> simp
  | calculatePnl e x s pv => simp [applyOp]

theorem runOps_threshold_inv (ops : List RMOp) (rm : RiskManager)
    (h : RMThresholdInv rm) : RMThresholdInv (runOps rm ops) := by
  induction ops generalizing rm with
  | nil => simpa [runOps] using h
  | cons op ops ih =>
      simpa [runOps, List.foldl_cons] using
        ih (applyOp rm op) (applyOp_threshold_inv rm op h)

theorem applyOp_disabled_mono (rm : RiskManager) (op : RMOp)
    (h : rm.trading_disabled = true) :
    (applyOp rm op).trading_disabled = true := by
  cases op with
  | resetDay => simpa [applyOp, RiskManager.reset_day] using h
  | updateAfterTrade pl =>
      simp only [applyOp, RiskManager.update_after_trade]
      split_ifs <;> simp_all
  | allowNewTrade => simpa [applyOp] using h
  | checkRealTimeRisk u =>
      simp only [applyOp, RiskManager.check_real_time_risk]
      split_ifs
      all_goals simp_all
  | calculatePnl e x s pv => simpa [applyOp] using h

-- ### Claim theorems on RiskManager

/-- C1: `update_after_trade(pl)` adds `pl` to `daily_realized_pl` and
`current_balance`; when the new balance exceeds the old peak it raises the
peak to the new balance and recomputes the trailing threshold as the new
peak minus `max_drawdown`, otherwise it leaves both alone; afterwards
`trading_disabled` is set exactly when the post-update balance is strictly
below the post-update trailing threshold or at most
`daily_start_balance - daily_loss_limit`, and is otherwise unchanged; no
other field moves. -/
theorem C1_update_after_trade (rm : RiskManager) (pl : ℚ) :
    (rm.update_after_trade pl).daily_realized_pl = rm.daily_realized_pl + pl ∧
    (rm.update_after_trade pl).current_balance = rm.current_balance + pl ∧
    (if rm.current_balance + pl > rm.peak_balance then
      (rm.update_after_trade pl).peak_balance = rm.current_balance + pl ∧
      (rm.update_after_trade pl).trailing_threshold =
        (rm.update_after_trade pl).peak_balance - rm.max_drawdown
    else
      (rm.update_after_trade pl).peak_balance = rm.peak_balance ∧
      (rm.update_after_trade pl).trailing_threshold = rm.trailing_threshold) ∧
    (rm.update_after_trade pl).trading_disabled =
      (rm.trading_disabled
        || decide ((rm.update_after_trade pl).current_balance <
              (rm.update_after_trade pl).trailing_threshold)
        || decide ((rm.update_after_trade pl).current_balance ≤
              rm.daily_start_balance - rm.daily_loss_limit)) ∧
    (rm.update_after_trade pl).starting_balance = rm.starting_balance ∧
    (rm.update_after_trade pl).daily_loss_limit = rm.daily_loss_limit ∧
    (rm.update_after_trade pl).max_drawdown = rm.max_drawdown ∧
    (rm.update_after_trade pl).daily_start_balance = rm.daily_start_balance := by
  obtain ⟨h1, h2, h3, h4, h5, h6⟩ := update_after_trade_fields rm pl
  obtain ⟨hp, hnp⟩ := update_after_trade_peak rm pl
  refine ⟨h1, h2, ?_, update_after_trade_disabled rm pl, h3, h4, h5, h6⟩
  split_ifs with h
  · obtain ⟨hpk, htt⟩ := hp h
    exact ⟨hpk, by rw [htt, hpk]⟩
  · exact hnp h

theorem check_real_time_risk_cases (rm : RiskManager) (u : ℚ) :
    (rm.trading_disabled = true → rm.check_real_time_risk u = (rm, true)) ∧
    (rm.trading_disabled = false →
      ((rm.current_balance + u < rm.trailing_threshold ∨
        rm.current_balance + u ≤ rm.daily_start_balance - rm.daily_loss_limit) →
        rm.check_real_time_risk u =
          ({ rm with trading_disabled := true }, true)) ∧
      (¬ (rm.current_balance + u < rm.trailing_threshold) ∧
       ¬ (rm.current_balance + u ≤ rm.daily_start_balance - rm.daily_loss_limit) →
        rm.check_real_time_risk u = (rm, false))) := by
  constructor
  · intro hd
    simp [RiskManager.check_real_time_risk, hd]
  · intro hd
    constructor
    · rintro (hb | hb)
      · simp [RiskManager.check_real_time_risk, hd, hb]
      · by_cases ht : rm.current_balance + u < rm.trailing_threshold
        · simp [RiskManager.check_real_time_risk, hd, ht]
        · simp [RiskManager.check_real_time_risk, hd, ht, hb]
    · rintro ⟨h1, h2⟩
      simp [RiskManager.check_real_time_risk, hd, h1, h2]

/-- C2: `check_real_time_risk(unrealized_pl)` returns `true` and changes
nothing when trading is already disabled; otherwise, with
`equity = current_balance + unrealized_pl`, it disables trading and returns
`true` when `equity` is strictly below the trailing threshold or at most
`daily_start_balance - daily_loss_limit`, and returns `false` leaving every
field unchanged when neither breach holds. -/
theorem C2_check_real_time_risk (rm : RiskManager) (u : ℚ) :
    (rm.trading_disabled = true → rm.check_real_time_risk u = (rm, true)) ∧
    (rm.trading_disabled = false →
      ((rm.current_balance + u < rm.trailing_threshold ∨
        rm.current_balance + u ≤ rm.daily_start_balance - rm.daily_loss_limit) →
        rm.check_real_time_risk u =
          ({ rm with trading_disabled := true }, true)) ∧
      (¬ (rm.current_balance + u < rm.trailing_threshold) ∧
       ¬ (rm.current_balance + u ≤ rm.daily_start_balance - rm.daily_loss_limit) →
        rm.check_real_time_risk u = (rm, false))) :=
  check_real_time_risk_cases rm u

/-- Witness for C2: an unrealized loss of 1100 on the 50000/1000/2000 account
breaches the daily limit, disables trading and returns `true`. -/
theorem C2_witness :
    (RiskManager.init 50000 1000 2000).check_real_time_risk (-1100) =
      ({ RiskManager.init 50000 1000 2000 with trading_disabled := true },
        true) :=
  ((C2_check_real_time_risk (RiskManager.init 50000 1000 2000) (-1100)).2
    rfl).1 (Or.inr (by norm_num [RiskManager.init]))

/-- C4: in every state reachable from construction by any sequence of method
calls, `trailing_threshold = peak_balance - max_drawdown`, and no further
method call can decrease `peak_balance`. -/
theorem C4_reachable_invariants (sb dll mdd : ℚ) (ops : List RMOp) :
    (runOps (RiskManager.init sb dll mdd) ops).trailing_threshold =
      (runOps (RiskManager.init sb dll mdd) ops).peak_balance -
        (runOps (RiskManager.init sb dll mdd) ops).max_drawdown ∧
    ∀ op : RMOp,
      (runOps (RiskManager.init sb dll mdd) ops).peak_balance ≤
        (applyOp (runOps (RiskManager.init sb dll mdd) ops) op).peak_balance := by
  refine ⟨?_, fun op => applyOp_peak_mono _ op⟩
  exact runOps_threshold_inv ops _ (by simp [RiskManager.init, RMThresholdInv])

/-- C5: once `trading_disabled` is true no method call clears it, and
`reset_day` sets `daily_start_balance` to the current balance, zeroes
`daily_realized_pl`, and leaves `trading_disabled`, `current_balance`,
`peak_balance` and `trailing_threshold` unchanged. -/
theorem C5_disabled_latch_and_reset_day (rm : RiskManager) (op : RMOp) :
    (rm.trading_disabled = true → (applyOp rm op).trading_disabled = true) ∧
    rm.reset_day.daily_start_balance = rm.current_balance ∧
    rm.reset_day.daily_realized_pl = 0 ∧
    rm.reset_day.trading_disabled = rm.trading_disabled ∧
    rm.reset_day.current_balance = rm.current_balance ∧
    rm.reset_day.peak_balance = rm.peak_balance ∧
    rm.reset_day.trailing_threshold = rm.trailing_threshold := by
  exact ⟨applyOp_disabled_mono rm op, rfl, rfl, rfl, rfl, rfl, rfl⟩

/-- Witness for C5: a disabled account stays disabled across `reset_day`. -/
theorem C5_witness :
    (applyOp { RiskManager.init 50000 1000 2000 with trading_disabled := true }
        RMOp.resetDay).trading_disabled = true :=
  (C5_disabled_latch_and_reset_day
    { RiskManager.init 50000 1000 2000 with trading_disabled := true }
    RMOp.resetDay).1 rfl

/-- C6: in `update_after_trade` a post-update balance exactly equal to
`daily_start_balance - daily_loss_limit` disables trading (comparison `<=`),
while a balance exactly equal to the post-update trailing threshold does not
by itself (comparison `<`); the same asymmetry holds for the equity in
`check_real_time_risk`. -/
theorem C6_boundary_comparisons (rm : RiskManager) (pl u : ℚ) :
    (rm.current_balance + pl = rm.daily_start_balance - rm.daily_loss_limit →
      (rm.update_after_trade pl).trading_disabled = true) ∧
    (rm.trading_disabled = false →
      rm.current_balance + pl = (rm.update_after_trade pl).trailing_threshold →
      ¬ (rm.current_balance + pl ≤
          rm.daily_start_balance - rm.daily_loss_limit) →
      (rm.update_after_trade pl).trading_disabled = false) ∧
    (rm.trading_disabled = false →
      rm.current_balance + u = rm.daily_start_balance - rm.daily_loss_limit →
      rm.check_real_time_risk u =
        ({ rm with trading_disabled := true }, true)) ∧
    (rm.trading_disabled = false →
      rm.current_balance + u = rm.trailing_threshold →
      ¬ (rm.current_balance + u ≤
          rm.daily_start_balance - rm.daily_loss_limit) →
      rm.check_real_time_risk u = (rm, false)) := by
  have hcb := (update_after_trade_fields rm pl).2.1
  refine ⟨?_, ?_, ?_, ?_⟩
  · intro h
    rw [update_after_trade_disabled, hcb]
    rw [decide_eq_true (le_of_eq h)]
    simp
  · intro hd heq hnd
    rw [update_after_trade_disabled, hd, hcb]
    rw [decide_eq_false (by rw [heq]; exact lt_irrefl _),
        decide_eq_false hnd]
    simp
  · intro hd heq
    by_cases ht : rm.current_balance + u < rm.trailing_threshold
    · exact ((check_real_time_risk_cases rm u).2 hd).1 (Or.inl ht)
    · exact ((check_real_time_risk_cases rm u).2 hd).1 (Or.inr (le_of_eq heq))
  · intro hd heq hnd
    exact ((check_real_time_risk_cases rm u).2 hd).2
      ⟨by rw [heq]; exact lt_irrefl _, hnd⟩

/-- Witness for C6: on the 50000/1000/2000 account a loss of exactly 1000
lands on the daily threshold and disables trading, while on a 50000/1000/500
account an unrealized loss of exactly 500 lands on the trailing threshold
(49500, above the daily threshold 49000) and does not. -/
theorem C6_witness :
    ((RiskManager.init 50000 1000 2000).update_after_trade
        (-1000)).trading_disabled = true ∧
    (RiskManager.init 50000 1000 500).check_real_time_risk (-500) =
      (RiskManager.init 50000 1000 500, false) := by
  constructor
  · exact (C6_boundary_comparisons (RiskManager.init 50000 1000 2000)
      (-1000) 0).1 (by norm_num [RiskManager.init])
  · exact (C6_boundary_comparisons (RiskManager.init 50000 1000 500)
      0 (-500)).2.2.2 rfl (by norm_num [RiskManager.init])
      (by norm_num [RiskManager.init])

/-- C7 counterexample: with `size = 1` and `point_value` absent,
`calculate_pnl` raises a `TypeError` (the multiplication hits `None`)
instead of returning `0` as the claim states. -/
theorem C7_counterexample :
    RiskManager.calculate_pnl 0 1 1 none = Except.error "TypeError" ∧
    RiskManager.calculate_pnl 0 1 1 none ≠ Except.ok 0 := by
  refine ⟨rfl, ?_⟩
  simp [RiskManager.calculate_pnl]

/-- C7 (amended): `calculate_pnl` returns `0` exactly when `size == 0` (the
early return fires before `point_value` is read); with nonzero size and a
present `point_value` it returns `(exit_price - entry_price) * size *
point_value`; with nonzero size and absent `point_value` it raises
`TypeError`; it never mutates `RiskManager` state. -/
theorem C7_calculate_pnl (e x : ℚ) (s : ℤ) (pv : Option ℚ) :
    (s = 0 → RiskManager.calculate_pnl e x s pv = Except.ok 0) ∧
    (∀ v : ℚ, s ≠ 0 → pv = some v →
      RiskManager.calculate_pnl e x s pv =
        Except.ok ((x - e) * (s : ℚ) * v)) ∧
    (s ≠ 0 → pv = none →
      RiskManager.calculate_pnl e x s pv = Except.error "TypeError") ∧
    (∀ rm : RiskManager, applyOp rm (RMOp.calculatePnl e x s pv) = rm) := by
  refine ⟨?_, ?_, ?_, fun rm => rfl⟩
  · intro h
    simp [RiskManager.calculate_pnl, h]
  · intro v hs hpv
    simp [RiskManager.calculate_pnl, hs, hpv]
  · intro hs hpv
    simp [RiskManager.calculate_pnl, hs, hpv]

/-- Witness for C7: a zero-size trade yields P&L 0, and a long 2-lot with
point value 50 moving from 100 to 103 yields 300. -/
theorem C7_witness :
    RiskManager.calculate_pnl 5 7 0 (some 2) = Except.ok 0 ∧
    RiskManager.calculate_pnl 100 103 2 (some 50) = Except.ok 300 := by
  constructor
  · exact (C7_calculate_pnl 5 7 0 (some 2)).1 rfl
  · have h := (C7_calculate_pnl 100 103 2 (some 50)).2.1 50 (by decide) rfl
    rw [h]
    norm_num

-- ### BasicStrategy (src/strategy/basic_strategy.py)

/-- State of `BasicStrategy`.  The deques are lists with the oldest price at
the head (`popleft` removes the head, `append` adds at the tail). -/
structure BasicStrategy where
  short_window : ℕ
  long_window : ℕ
  short_prices : List ℚ
  long_prices : List ℚ
  short_sum : ℚ
  long_sum : ℚ
  deriving DecidableEq, Repr

/-- `collections.deque(maxlen=m).append(x)`: append on the right; when the
deque is full the leftmost element is discarded, so the length never
exceeds `m`. -/
def dequeAppend (maxlen : ℕ) (xs : List ℚ) (x : ℚ) : List ℚ :=
  if maxlen < (xs ++ [x]).length then
    (xs ++ [x]).drop ((xs ++ [x]).length - maxlen)
  else xs ++ [x]

/-- `BasicStrategy.__init__(short_window, long_window)` after its
`ValueError` guard (both windows must be positive): empty deques, zero
running sums. -/
def BasicStrategy.init (short_window long_window : ℕ) : BasicStrategy where
  short_window := short_window
  long_window := long_window
  short_prices := []
  long_prices := []
  short_sum := 0
  long_sum := 0

/-- `BasicStrategy.recommend_position(price)`: returns the updated state and
the recommendation.  The two `if len(...) > window` compensation branches of
the source pop the oldest (leftmost) element and subtract it from the
running sum; `headD 0` is that element (the branch can only run on a
nonempty deque, whose length would exceed the window). -/
def BasicStrategy.recommend_position (s : BasicStrategy) (price : ℚ) :
    BasicStrategy × Option ℤ :=
  let longP := dequeAppend s.long_window s.long_prices price
  let longS := s.long_sum + price
  let longP2 := if s.long_window < longP.length then longP.tail else longP
  let longS2 :=
    if s.long_window < longP.length then longS - longP.headD 0 else longS
  let shortP := dequeAppend s.short_window s.short_prices price
  let shortS := s.short_sum + price
  let shortP2 :=
    if s.short_window < shortP.length then shortP.tail else shortP
  let shortS2 :=
    if s.short_window < shortP.length then shortS - shortP.headD 0 else shortS
  let s2 := { s with long_prices := longP2, long_sum := longS2,
                     short_prices := shortP2, short_sum := shortS2 }
  if longP2.length < s.long_window then (s2, none)
  else
    let short_ma := shortS2 / (shortP2.length : ℚ)
    let long_ma := longS2 / (longP2.length : ℚ)
    if short_ma > long_ma then (s2, some 1)
    else if short_ma < long_ma then (s2, some (-1))
    else (s2, some 0)

/-- The recommendations produced by feeding a price sequence, in order. -/
def feedSignals (s : BasicStrategy) : List ℚ → List (Option ℤ)
  | [] => []
  | p :: ps =>
      (s.recommend_position p).2 :: feedSignals (s.recommend_position p).1 ps

/-- The strategy state after feeding a price sequence. -/
def feedState (s : BasicStrategy) (ps : List ℚ) : BasicStrategy :=
  ps.foldl (fun t p => (t.recommend_position p).1) s

-- ### Helper lemmas on BasicStrategy

theorem dequeAppend_length (m : ℕ) (xs : List ℚ) (x : ℚ)
    (h : xs.length ≤ m) :
    (dequeAppend m xs x).length = min (xs.length + 1) m := by
  rw [dequeAppend]
  split_ifs with hlt
  all_goals
    simp only [List.length_drop, List.length_append, List.length_cons,
      List.length_nil] at *
    omega

/-- After feeding `n` prices totalling `total`: both running sums still hold
the total of every price ever fed (the compensation branches never ran) and
the deque lengths are `min n window`. -/
def StratInv (sw lw n : ℕ) (total : ℚ) (s : BasicStrategy) : Prop :=
  s.short_window = sw ∧ s.long_window = lw ∧
  s.short_sum = total ∧ s.long_sum = total ∧
  s.short_prices.length = min n sw ∧ s.long_prices.length = min n lw

theorem stratInv_step (sw lw n : ℕ) (total : ℚ) (s : BasicStrategy)
    (h : StratInv sw lw n total s) (p : ℚ) :
    StratInv sw lw (n + 1) (total + p) ((s.recommend_position p).1) := by
  obtain ⟨h1, h2, h3, h4, h5, h6⟩ := h
  have hshort : s.short_prices.length ≤ s.short_window := by
    rw [h5, h1]; omega
  have hlong : s.long_prices.length ≤ s.long_window := by
    rw [h6, h2]; omega
  have hS := dequeAppend_length s.short_window s.short_prices p hshort
  have hL := dequeAppend_length s.long_window s.long_prices p hlong
  have hSne : ¬ s.short_window <
      (dequeAppend s.short_window s.short_prices p).length := by
    rw [hS]; omega
  have hLne : ¬ s.long_window <
      (dequeAppend s.long_window s.long_prices p).length := by
    rw [hL]; omega
  simp only [BasicStrategy.recommend_position, if_neg hSne, if_neg hLne]
  split_ifs <;>
    exact ⟨h1, h2, by rw [h3], by rw [h4],
      by rw [hS, h5, h1]; omega, by rw [hL, h6, h2]; omega⟩

theorem stratInv_signal (sw lw n : ℕ) (total : ℚ) (s : BasicStrategy)
    (hsw : 0 < sw) (hswlw : sw < lw) (hn : lw ≤ n + 1)
    (h : StratInv sw lw n total s) (p : ℚ) (hpos : 0 < total + p) :
    (s.recommend_position p).2 = some 1 := by
  obtain ⟨h1, h2, h3, h4, h5, h6⟩ := h
  have hshort : s.short_prices.length ≤ s.short_window := by
    rw [h5, h1]; omega
  have hlong : s.long_prices.length ≤ s.long_window := by
    rw [h6, h2]; omega
  have hS := dequeAppend_length s.short_window s.short_prices p hshort
  have hL := dequeAppend_length s.long_window s.long_prices p hlong
  have hSne : ¬ s.short_window <
      (dequeAppend s.short_window s.short_prices p).length := by
    rw [hS]; omega
  have hLne : ¬ s.long_window <
      (dequeAppend s.long_window s.long_prices p).length := by
    rw [hL]; omega
  have hSlen : (dequeAppend s.short_window s.short_prices p).length = sw := by
    rw [hS, h5, h1]; omega
  have hLlen : (dequeAppend s.long_window s.long_prices p).length = lw := by
    rw [hL, h6, h2]; omega
  have hready : ¬ (dequeAppend s.long_window s.long_prices p).length <
      s.long_window := by
    rw [hLlen, h2]; omega
  simp only [BasicStrategy.recommend_position, if_neg hSne, if_neg hLne,
    if_neg hready]
  rw [h3, h4, hSlen, hLlen]
  have hcmp : (total + p) / (lw : ℚ) < (total + p) / (sw : ℚ) := by
    apply div_lt_div_of_pos_left hpos
    · exact_mod_cast hsw
    · exact_mod_cast hswlw
  rw [if_pos hcmp]

theorem stratInv_feedState (sw lw : ℕ) (qs : List ℚ) :
    ∀ (n : ℕ) (total : ℚ) (s : BasicStrategy), StratInv sw lw n total s →
      StratInv sw lw (n + qs.length) (total + qs.sum) (feedState s qs) := by
  induction qs with
  | nil => intro n total s h; simpa [feedState] using h
  | cons q qs ih =>
      intro n total s h
      have h2 := ih (n + 1) (total + q) _ (stratInv_step sw lw n total s h q)
      have e1 : n + (q :: qs).length = n + 1 + qs.length := by
        simp only [List.length_cons]; omega
      have e2 : total + (q :: qs).sum = total + q + qs.sum := by
        simp only [List.sum_cons]; ring
      rw [e1, e2]
      exact h2

theorem feedSignals_pos_after (sw lw : ℕ) (hsw : 0 < sw) (hswlw : sw < lw)
    (ps : List ℚ) :
    ∀ (n : ℕ) (total : ℚ) (s : BasicStrategy), StratInv sw lw n total s →
      0 ≤ total → (∀ p ∈ ps, 0 < p) →
      ∀ i, i < ps.length → lw ≤ n + i + 1 →
        (feedSignals s ps).get? i = some (some 1) := by
  induction ps with
  | nil => intro n total s _ _ _ i hi; simp at hi
  | cons p ps ih =>
      intro n total s hinv htot hpos i hi hlw
      have hp : 0 < p := hpos p (by simp)
      cases i with
      | zero =>
          have hsig : (s.recommend_position p).2 = some 1 :=
            stratInv_signal sw lw n total s hsw hswlw (by omega) hinv p
              (by linarith)
          simp [feedSignals, hsig]
      | succ i =>
          have htail := ih (n + 1) (total + p) _
            (stratInv_step sw lw n total s hinv p) (by linarith)
            (fun q hq => hpos q (by simp [hq])) i (by simpa using hi)
            (by omega)
          simpa [feedSignals] using htail

-- ### Claim theorems on BasicStrategy

/-- C9: feeding 100,101,102,103,104,105 into a short=3/long=5 strategy
yields `None` for each of the first 4 prices and `+1` on the 5th. -/
theorem C9_crossover_scenario :
    (feedSignals (BasicStrategy.init 3 5)
        [100, 101, 102, 103, 104, 105]).take 5 =
      [none, none, none, none, some 1] := by
  norm_num [feedSignals, BasicStrategy.recommend_position, dequeAppend,
    BasicStrategy.init]

/-- C10 counterexample: the claim as stated quantifies over every
constructor-valid strategy, but with `short_window = long_window = 1` the
single positive price 100 (a sequence of length `long_window` of strictly
positive prices) produces recommendation `0` on the `long_window`-th price,
not `+1`. -/
theorem C10_counterexample :
    (feedSignals (BasicStrategy.init 1 1) [100]).get? 0 = some (some 0) ∧
    (feedSignals (BasicStrategy.init 1 1) [100]).get? 0 ≠ some (some 1) := by
  norm_num [feedSignals, BasicStrategy.recommend_position, dequeAppend,
    BasicStrategy.init]

/-- C10 (amended): provided `short_window < long_window` (the shape main.py
enforces before entering the loop), the compensation branches never fire:
after any fed sequence both running sums equal the sum of every price ever
received and the deque lengths are `min n window`; consequently, for every
sequence of strictly positive prices, every recommendation from the
`long_window`-th price onward is `+1`. -/
theorem C10_unwindowed_sums (sw lw : ℕ) (hsw : 0 < sw) (hswlw : sw < lw) :
    (∀ qs : List ℚ,
      (feedState (BasicStrategy.init sw lw) qs).short_sum = qs.sum ∧
      (feedState (BasicStrategy.init sw lw) qs).long_sum = qs.sum ∧
      (feedState (BasicStrategy.init sw lw) qs).short_prices.length =
        min qs.length sw ∧
      (feedState (BasicStrategy.init sw lw) qs).long_prices.length =
        min qs.length lw) ∧
    (∀ ps : List ℚ, (∀ p ∈ ps, 0 < p) →
      ∀ i, i < ps.length → lw - 1 ≤ i →
        (feedSignals (BasicStrategy.init sw lw) ps).get? i =
          some (some 1)) := by
  have hinit : StratInv sw lw 0 0 (BasicStrategy.init sw lw) :=
    ⟨rfl, rfl, rfl, rfl, by simp [BasicStrategy.init],
      by simp [BasicStrategy.init]⟩
  constructor
  · intro qs
    have h := stratInv_feedState sw lw qs 0 0 (BasicStrategy.init sw lw) hinit
    obtain ⟨-, -, h3, h4, h5, h6⟩ := h
    refine ⟨by simpa using h3, by simpa using h4, by simpa using h5,
      by simpa using h6⟩
  · intro ps hpos i hi hlwi
    exact feedSignals_pos_after sw lw hsw hswlw ps 0 0
      (BasicStrategy.init sw lw) hinit le_rfl hpos i hi (by omega)

/-- Witness for the amended C10: five positive prices into a short=3/long=5
strategy give `+1` on the 5th. -/
theorem C10_witness :
    (feedSignals (BasicStrategy.init 3 5) [1, 1, 1, 1, 1]).get? 4 =
      some (some 1) :=
  (C10_unwindowed_sums 3 5 (by decide) (by decide)).2 [1, 1, 1, 1, 1]
    (by norm_num) 4 (by decide) (by decide)

-- ### Main-loop position transitions (src/main.py)

/-- Order side sent to the broker. -/
inductive Side where
  | buy
  | sell
  deriving DecidableEq, Repr

/-- A market order request: side and contract count. -/
structure Order where
  side : Side
  size : ℤ
  deriving DecidableEq, Repr

/-- The mutable loop state of `main`: net position, entry price of the open
position (`None` when flat), and the risk manager. -/
structure BotState where
  current_position : ℤ
  entry_price : Option ℚ
  risk : RiskManager
  deriving DecidableEq, Repr

/-- Outcome of the strategy-recommendation dispatch of one polling cycle:
the resulting loop state, the `place_order` calls attempted (in order), the
`flatten_position` calls attempted, and whether the loop stops after this
cycle (a `break`, or an exception escaping the dispatch). -/
structure CycleResult where
  state : BotState
  orders : List Order
  flattens : List Order
  halted : Bool
  deriving DecidableEq, Repr

/-- The `recommended_pos` dispatch of the main loop (src/main.py lines
221-311), with `orderOk` standing for whether `api.place_order` succeeds
this cycle.  Mirrors the source:
* flat close (recommendation 0, nonzero position): the order failure is
  caught and only logged, after which the realized P&L is still applied and
  the position zeroed; a `TypeError` from `calculate_pnl` (absent point
  value) is raised outside any inner `try` and escapes the loop (modelled
  as `halted` with the pre-mutation state);
* long / short entry: gated by `allow_new_trade`; the entire body including
  the book-keeping sits in one `try`, so any failure (order rejection, or a
  `TypeError` while closing the opposite leg) leaves the state untouched;
  when closing the opposite leg disables trading, the fresh position is
  immediately flattened and the loop breaks. -/
def mainCycleDispatch (st : BotState) (recommended_pos : Option ℤ)
    (price : ℚ) (base_order_size : ℤ) (pv : Option ℚ) (orderOk : Bool) :
    CycleResult :=
  match recommended_pos with
  | none => ⟨st, [], [], false⟩
  | some r =>
    if r = 0 ∧ st.current_position ≠ 0 then
      let closeOrder : Order :=
        ⟨if st.current_position > 0 then Side.sell else Side.buy,
          |st.current_position|⟩
      match st.entry_price with
      | some ep =>
        match RiskManager.calculate_pnl ep price st.current_position pv with
        | Except.error _ => ⟨st, [closeOrder], [], true⟩
        | Except.ok pl =>
          let risk2 := st.risk.update_after_trade pl
          ⟨⟨0, none, risk2⟩, [closeOrder], [], risk2.trading_disabled⟩
      | none =>
        ⟨⟨0, none, st.risk⟩, [closeOrder], [], st.risk.trading_disabled⟩
    else if r = 1 ∧ st.current_position ≤ 0 then
      let old := st.current_position
      let trade_size := (if old < 0 then |old| else 0) + base_order_size
      if ¬ st.risk.allow_new_trade then ⟨st, [], [], false⟩
      else
        let entryOrder : Order := ⟨Side.buy, trade_size⟩
        if orderOk then
          if old < 0 then
            match st.entry_price with
            | none => ⟨st, [entryOrder], [], false⟩
            | some ep =>
              match RiskManager.calculate_pnl ep price old pv with
              | Except.error _ => ⟨st, [entryOrder], [], false⟩
              | Except.ok pl_close =>
                let risk2 := st.risk.update_after_trade pl_close
                if risk2.trading_disabled then
                  ⟨⟨0, none, risk2⟩, [entryOrder],
                    [⟨Side.sell, base_order_size⟩], true⟩
                else
                  ⟨⟨old + trade_size, some price, risk2⟩, [entryOrder],
                    [], false⟩
          else ⟨⟨old + trade_size, some price, st.risk⟩, [entryOrder],
            [], false⟩
        else ⟨st, [entryOrder], [], false⟩
    else if r = -1 ∧ st.current_position ≥ 0 then
      let old := st.current_position
      let trade_size := (if old > 0 then old else 0) + base_order_size
      if ¬ st.risk.allow_new_trade then ⟨st, [], [], false⟩
      else
        let entryOrder : Order := ⟨Side.sell, trade_size⟩
        if orderOk then
          if old > 0 then
            match st.entry_price with
            | none => ⟨st, [entryOrder], [], false⟩
            | some ep =>
              match RiskManager.calculate_pnl ep price old pv with
              | Except.error _ => ⟨st, [entryOrder], [], false⟩
              | Except.ok pl_close =>
                let risk2 := st.risk.update_after_trade pl_close
                if risk2.trading_disabled then
                  ⟨⟨0, none, risk2⟩, [entryOrder],
                    [⟨Side.buy, base_order_size⟩], true⟩
                else
                  ⟨⟨old - trade_size, some price, risk2⟩, [entryOrder],
                    [], false⟩
          else ⟨⟨old - trade_size, some price, st.risk⟩, [entryOrder],
            [], false⟩
        else ⟨st, [entryOrder], [], false⟩
    else ⟨st, [], [], false⟩

-- ### Helper lemmas on the dispatch

theorem dispatch_entry_blocked (st : BotState) (price : ℚ) (base : ℤ)
    (pv : Option ℚ) (ok : Bool) (r : ℤ) (hr : r = 1 ∨ r = -1)
    (h : st.risk.allow_new_trade = false) :
    mainCycleDispatch st (some r) price base pv ok =
      ⟨st, [], [], false⟩ := by
  rcases hr with h1 | h1 <;> subst h1 <;>
    simp [mainCycleDispatch, h]

-- ### Claim theorems on the dispatch

/-- C3 counterexample: in the flat-close branch a failed order
(`orderOk = false`) does not leave the position state unchanged: starting
long 1 contract entered at 100 on a fresh 50000/1000/2000 account, a close
recommended at price 90 whose order placement fails still zeroes
`current_position`, clears `entry_price` and books the realized P&L of -10
into the risk manager. -/
theorem C3_counterexample :
    (mainCycleDispatch ⟨1, some 100, RiskManager.init 50000 1000 2000⟩
        (some 0) 90 1 (some 1) false).state.current_position = 0 ∧
    (mainCycleDispatch ⟨1, some 100, RiskManager.init 50000 1000 2000⟩
        (some 0) 90 1 (some 1) false).state.entry_price = none ∧
    (mainCycleDispatch ⟨1, some 100, RiskManager.init 50000 1000 2000⟩
        (some 0) 90 1 (some 1) false).state.risk.daily_realized_pl = -10 := by
  norm_num [mainCycleDispatch, RiskManager.init, RiskManager.calculate_pnl,
    RiskManager.update_after_trade]

/-- C3 (amended): the long-entry and short-entry branches are atomic — a
failed order placement leaves the whole loop state (position, entry price
and risk state) unchanged — whereas the flat-close branch ignores the order
outcome entirely: its effect (realizing the P&L and zeroing the position)
is the same whether the order succeeds or fails. -/
theorem C3_entry_failure_atomic (st : BotState) (price : ℚ) (base : ℤ)
    (pv : Option ℚ) (r : ℤ) (hr : r = 1 ∨ r = -1) :
    (mainCycleDispatch st (some r) price base pv false).state = st ∧
    ∀ ok : Bool,
      mainCycleDispatch st (some 0) price base pv ok =
        mainCycleDispatch st (some 0) price base pv false := by
  constructor
  · rcases hr with h1 | h1 <;> subst h1 <;>
      simp [mainCycleDispatch, apply_ite]
  · intro ok
    cases ok
    · rfl
    · simp [mainCycleDispatch]

/-- Witness for the amended C3: a failed long entry from a short position
leaves the state exactly as it was. -/
theorem C3_witness :
    (mainCycleDispatch ⟨-1, some 100, RiskManager.init 50000 1000 2000⟩
        (some 1) 105 1 (some 1) false).state =
      ⟨-1, some 100, RiskManager.init 50000 1000 2000⟩ :=
  (C3_entry_failure_atomic ⟨-1, some 100, RiskManager.init 50000 1000 2000⟩
    105 1 (some 1) 1 (Or.inl rfl)).1

/-- C8: `allow_new_trade` is exactly the negation of `trading_disabled`;
with trading disabled any LONG/SHORT recommendation produces no order and
no state change (the warning is the only effect); an entry order can only
have been placed when `allow_new_trade` returned true; and a FLAT close of
a nonzero position always attempts the closing order, regardless of
`trading_disabled`. -/
theorem C8_entry_gating (st : BotState) (price : ℚ) (base : ℤ)
    (pv : Option ℚ) (ok : Bool) :
    (st.risk.allow_new_trade = !st.risk.trading_disabled) ∧
    (st.risk.trading_disabled = true → ∀ r : ℤ, r = 1 ∨ r = -1 →
      mainCycleDispatch st (some r) price base pv ok =
        ⟨st, [], [], false⟩) ∧
    (∀ r : ℤ, r = 1 ∨ r = -1 →
      (mainCycleDispatch st (some r) price base pv ok).orders ≠ [] →
      st.risk.allow_new_trade = true) ∧
    (st.current_position ≠ 0 →
      (mainCycleDispatch st (some 0) price base pv ok).orders =
        [⟨if st.current_position > 0 then Side.sell else Side.buy,
          |st.current_position|⟩]) := by
  refine ⟨?_, ?_, ?_, ?_⟩
  · cases h : st.risk.trading_disabled <;>
      simp [RiskManager.allow_new_trade, h]
  · intro hd r hr
    exact dispatch_entry_blocked st price base pv ok r hr
      (by simp [RiskManager.allow_new_trade, hd])
  · intro r hr hne
    by_cases hallow : st.risk.allow_new_trade = true
    · exact hallow
    · exfalso
      apply hne
      rw [dispatch_entry_blocked st price base pv ok r hr
        (by simpa using hallow)]
  · intro hcp
    simp only [mainCycleDispatch]
    rw [if_pos (show True ∧ st.current_position ≠ 0 from ⟨trivial, hcp⟩)]
    rcases st.entry_price with _ | ep
    · rfl
    · cases hcal :
        RiskManager.calculate_pnl ep price st.current_position pv <;>
        simp [hcal]

/-- Witness for C8: with trading disabled, a LONG recommendation from flat
produces no order and no change. -/
theorem C8_witness :
    mainCycleDispatch
        ⟨0, none,
          { RiskManager.init 50000 1000 2000 with trading_disabled := true }⟩
        (some 1) 100 1 (some 1) true =
      ⟨⟨0, none,
          { RiskManager.init 50000 1000 2000 with trading_disabled := true }⟩,
        [], [], false⟩ :=
  (C8_entry_gating
    ⟨0, none,
      { RiskManager.init 50000 1000 2000 with trading_disabled := true }⟩
    100 1 (some 1) true).2.1 rfl 1 (Or.inl rfl)
